import Mathlib

/-!
A shallow embedding of `myicomfort/api.py` (class `Tstat`), the client-side
state model of a Lennox iComfort / AirEase cloud thermostat.

Modelling conventions:
  * The mutable object state (`self._...` attributes) is the record
    `TstatState`.  Credentials and the service base URL are opaque
    configuration passed through unchanged to every remote call; they do not
    influence any behaviour verified here and are omitted from the state.
  * Remote responses are passed to each operation as an explicit argument
    (`SystemsResponse`, `PullResponse`); whether the operation actually
    issued a request is an explicit output (`requested` flag / `Option`
    request payload), since several operations are no-ops when the identity
    is unresolved.
  * JSON field values inside a per-zone record are `JVal`: either a number,
    or `bad` standing for any value on which Python `int()` / `float()`
    raises (null, a non-numeric string, an object, ...).  A missing key is
    an `Option.none` field of `ZoneRecord` (Python raises `KeyError`).
  * An uncaught Python exception propagating out of an operation is the
    `exc : Bool` flag of the result, paired with the object state as already
    mutated at the point the exception was raised (Python mutates `self` in
    place, so assignments made before the raise persist).
  * Python `int()` on a float truncates toward zero: `Int.div num den` on
    the reduced fraction.
  * The system and zone indices are modelled as `Nat` (the constructor
    defaults are `0`; Python's negative-index aliasing is out of scope of
    every claim, which all speak of indices in or out of range of the list).
-/

namespace Myicomfort

/-- A JSON value stored under one key of a per-zone record: a number, or a
value on which Python `int()` and `float()` raise. -/
inductive JVal where
  | num (q : ℚ)
  | bad
  deriving DecidableEq, Repr

/-- Python `int()` truncation toward zero of a rational. -/
def pyTrunc (q : ℚ) : Int := Int.tdiv q.num (q.den : Int)

/-- Python `int(stat_info[key])`: `none` when the key is missing
(`KeyError`) or the value is not convertible (`ValueError`/`TypeError`). -/
def jvalInt (v : Option JVal) : Option Int :=
  match v with
  | some (.num q) => some (pyTrunc q)
  | some .bad => none
  | none => none

/-- Python `float(stat_info[key])`: `none` when the key is missing or the
value is not convertible. -/
def jvalFloat (v : Option JVal) : Option ℚ :=
  match v with
  | some (.num q) => some q
  | some .bad => none
  | none => none

/-- One element of the `tStatInfo` array of a 200 `GetTStatInfoList`
response, restricted to the keys `pull_status` reads.  A `none` field means
the key is absent from the JSON object. -/
structure ZoneRecord where
  Pref_Temp_Units : Option JVal
  System_Status : Option JVal
  Operation_Mode : Option JVal
  Fan_Mode : Option JVal
  Away_Mode : Option JVal
  Indoor_Temp : Option JVal
  Indoor_Humidity : Option JVal
  Heat_Set_Point : Option JVal
  Cool_Set_Point : Option JVal
  deriving DecidableEq, Repr

/-- The mutable state of a `Tstat` object (its `self._...` attributes). -/
structure TstatState where
  serial_number : Option String
  system : Nat
  zone : Nat
  temperature_units : Int
  use_tstat_units : Bool
  heat_to : Option ℚ
  cool_to : Option ℚ
  away_mode : Option Int
  state : Option Int
  op_mode : Option Int
  fan_mode : Option Int
  current_temperature : Option ℚ
  current_humidity : Option ℚ
  deriving DecidableEq, Repr

/-- Response of `GetSystemsInfo`: on 200, the list of `Gateway_SN` strings
of the `Systems` array; otherwise the failure status. -/
inductive SystemsResponse where
  | ok (systems : List String)
  | unauthorized
  | err (code : Nat)
  deriving DecidableEq, Repr

/-- Response of `GetTStatInfoList`: on 200, the `tStatInfo` array of
per-zone records; otherwise the failure status code. -/
inductive PullResponse where
  | ok (tStatInfo : List ZoneRecord)
  | err (code : Nat)
  deriving DecidableEq, Repr

/-- Severity of a log line emitted during an operation. -/
inductive LogLevel where
  | debug
  | warning
  | error
  deriving DecidableEq, Repr

/-- Field state of a fresh `Tstat` after the attribute assignments of
`__init__`, before `_get_serial_number` and the initial pulls run.  A
`units` argument of 0 or 1 fixes the unit override; any other value (the
default is 9) selects tracking of the thermostat's own preference. -/
def mkInitState (system zone : Nat) (units : Int) : TstatState :=
  { serial_number := none
    system := system
    zone := zone
    temperature_units := if units = 0 ∨ units = 1 then units else 0
    use_tstat_units := ¬(units = 0 ∨ units = 1)
    heat_to := none
    cool_to := none
    away_mode := none
    state := none
    op_mode := none
    fan_mode := none
    current_temperature := none
    current_humidity := none }

/-- Model of `Tstat.connected`. -/
def connected (s : TstatState) : Bool := s.serial_number.isSome

/-- Model of `Tstat._get_serial_number`: selects `Systems[self._system]["Gateway_SN"]`
from a 200 response, falling back to index 0 (and persisting `_system = 0`)
on `IndexError`; any non-200 response only logs. -/
def get_serial_number (s : TstatState) (resp : SystemsResponse) : TstatState :=
  match resp with
  | .ok systems =>
    match systems[s.system]? with
    | some sn => { s with serial_number := some sn }
    | none =>
      let s' := { s with system := 0 }
      match systems[0]? with
      | some sn => { s' with serial_number := some sn }
      | none => s'
  | .unauthorized => s
  | .err _ => s

/-- Sequencing of the field assignments of `pull_status`: run the next
assignment only when no exception has been raised so far. -/
def thenStep (r : TstatState × Bool) (f : TstatState → TstatState × Bool) :
    TstatState × Bool :=
  if r.2 then r else f r.1

/-- The assignment block of `pull_status` run on a selected record, in
source order; the `Bool` is true when a conversion raised, in which case
the returned state holds exactly the assignments made before the raise. -/
def applyRecord (s : TstatState) (rec : ZoneRecord) : TstatState × Bool :=
  thenStep
    (if s.use_tstat_units then
      match jvalInt rec.Pref_Temp_Units with
      | some u => ({ s with temperature_units := u }, false)
      | none => (s, true)
    else (s, false)) fun s =>
  thenStep
    (match jvalInt rec.System_Status with
     | some v => ({ s with state := some v }, false)
     | none => (s, true)) fun s =>
  thenStep
    (match jvalInt rec.Operation_Mode with
     | some v => ({ s with op_mode := some v }, false)
     | none => (s, true)) fun s =>
  thenStep
    (match jvalInt rec.Fan_Mode with
     | some v => ({ s with fan_mode := some v }, false)
     | none => (s, true)) fun s =>
  thenStep
    (match jvalInt rec.Away_Mode with
     | some v => ({ s with away_mode := some v }, false)
     | none => (s, true)) fun s =>
  thenStep
    (match jvalFloat rec.Indoor_Temp with
     | some v => ({ s with current_temperature := some v }, false)
     | none => (s, true)) fun s =>
  thenStep
    (match jvalFloat rec.Indoor_Humidity with
     | some v => ({ s with current_humidity := some v }, false)
     | none => (s, true)) fun s =>
  thenStep
    (match jvalFloat rec.Heat_Set_Point with
     | some v => ({ s with heat_to := some v }, false)
     | none => (s, true)) fun s =>
    match jvalFloat rec.Cool_Set_Point with
    | some v => ({ s with cool_to := some v }, false)
    | none => (s, true)

/-- Result of `pull_status`: the object state afterwards, whether the HTTP
GET was issued, whether an uncaught exception propagated to the caller,
and the log lines emitted. -/
structure PullResult where
  state : TstatState
  requested : Bool
  exc : Bool
  logs : List LogLevel
  deriving DecidableEq, Repr

/-- Model of `Tstat.pull_status`: no-op without a resolved serial number; on 200,
select `tStatInfo[self._zone]`, with a single fallback to zone 0 (persisting
`_zone = 0`) when the `IndexError` occurs on the initial pull, and the
snapshot left untouched (error logged) when it occurs on a later pull;
then overwrite the snapshot fields from the selected record. -/
def pull_status (s : TstatState) (initial : Bool) (resp : PullResponse) :
    PullResult :=
  match s.serial_number with
  | none => ⟨s, false, false, []⟩
  | some _ =>
    match resp with
    | .err _ => ⟨s, true, false, [.error]⟩
    | .ok l =>
      match l[s.zone]? with
      | some rec =>
        let r := applyRecord s rec
        ⟨r.1, true, r.2, [.debug]⟩
      | none =>
        if initial then
          match l[0]? with
          | some rec =>
            let r := applyRecord { s with zone := 0 } rec
            ⟨r.1, true, r.2, [.debug, .warning]⟩
          | none => ⟨{ s with zone := 0 }, true, false, [.debug, .warning, .error]⟩
        else ⟨s, true, false, [.debug, .error]⟩

/-- The JSON body of the `SetTStatInfo` PUT issued by `_push_settings`. -/
structure PushPayload where
  Cool_Set_Point : Option ℚ
  Heat_Set_Point : Option ℚ
  Fan_Mode : Option Int
  Operation_Mode : Option Int
  Pref_Temp_Units : Int
  Zone_Number : Nat
  GatewaySN : String
  deriving DecidableEq, Repr

/-- Model of `Tstat._push_settings`: no-op without a resolved serial number;
otherwise serializes the full current snapshot as the write payload.  The
object state is never mutated. -/
def push_settings (s : TstatState) : TstatState × Option PushPayload :=
  match s.serial_number with
  | none => (s, none)
  | some sn =>
    (s, some
      { Cool_Set_Point := s.cool_to
        Heat_Set_Point := s.heat_to
        Fan_Mode := s.fan_mode
        Operation_Mode := s.op_mode
        Pref_Temp_Units := s.temperature_units
        Zone_Number := s.zone
        GatewaySN := sn })

/-- The `SetAwayModeNew` PUT issued by the `away_mode` setter: the serial
number and away flag interpolated into the command URL. -/
structure AwayRequest where
  gatewaysn : String
  awaymode : Int
  deriving DecidableEq, Repr

/-- The `away_mode` setter: no-op without a resolved serial number;
otherwise sends the dedicated away-mode PUT.  It never reads or writes any
snapshot field (the response only determines the log line emitted). -/
def away_mode_set (s : TstatState) (value : Int) :
    TstatState × Option AwayRequest :=
  match s.serial_number with
  | none => (s, none)
  | some sn => (s, some ⟨sn, value⟩)

/-- Argument of the `set_points` setter: a tuple of values or a single
number.  (Python would silently ignore any other type and still push.) -/
inductive SPValue where
  | tuple (l : List ℚ)
  | scalar (v : ℚ)
  deriving DecidableEq, Repr

/-- The field-mutation part of the `set_points` setter, before its final
`_push_settings()` call; `.error` is the `ValueError` Python's `min`/`max`
raise on an empty tuple. -/
def set_points_apply (s : TstatState) (v : SPValue) : Except Unit TstatState :=
  match v with
  | .tuple [a, b] =>
    .ok { s with heat_to := some (min a b), cool_to := some (max a b) }
  | .tuple l =>
    if s.op_mode = some 2 then
      match l.max? with
      | some m => .ok { s with cool_to := some m }
      | none => .error ()
    else if s.op_mode = some 1 ∨ s.op_mode = some 4 then
      match l.min? with
      | some m => .ok { s with heat_to := some m }
      | none => .error ()
    else .ok s
  | .scalar q =>
    if s.op_mode = some 2 then .ok { s with cool_to := some q }
    else if s.op_mode = some 1 ∨ s.op_mode = some 4 then
      .ok { s with heat_to := some q }
    else .ok s

/-- Result of a mutator that ends in `_push_settings()`: the state
afterwards, whether `_push_settings` was invoked, the payload it sent (if
the identity was resolved), and whether an exception propagated instead. -/
structure SetterResult where
  state : TstatState
  pushCalled : Bool
  payload : Option PushPayload
  exc : Bool
  deriving DecidableEq, Repr

/-- The `set_points` setter: mutate the set points according to the shape
of the argument and the current operation mode, then unconditionally call
`_push_settings()`. -/
def set_points_set (s : TstatState) (v : SPValue) : SetterResult :=
  match set_points_apply s v with
  | .ok s' =>
    let r := push_settings s'
    ⟨r.1, true, r.2, false⟩
  | .error _ => ⟨s, false, none, true⟩

/-- The `op_mode` setter: assign the field, then `_push_settings()`. -/
def op_mode_set (s : TstatState) (value : Int) : SetterResult :=
  let r := push_settings { s with op_mode := some value }
  ⟨r.1, true, r.2, false⟩

/-- The `fan_mode` setter: assign the field, then `_push_settings()`. -/
def fan_mode_set (s : TstatState) (value : Int) : SetterResult :=
  let r := push_settings { s with fan_mode := some value }
  ⟨r.1, true, r.2, false⟩

/-- Result of the `temperature_units` setter: the state afterwards, how
many times `pull_status` and `_push_settings` were invoked, and whether an
exception propagated out of the triggered pull. -/
structure UnitsSetResult where
  state : TstatState
  pullCount : Nat
  pushCount : Nat
  exc : Bool
  deriving DecidableEq, Repr

/-- The `temperature_units` setter: for the value 0 or 1, fix the unit
override and trigger one `pull_status` (no push); any other value is
ignored entirely. -/
def temperature_units_set (s : TstatState) (value : Int)
    (resp : PullResponse) : UnitsSetResult :=
  if value = 0 ∨ value = 1 then
    let s1 := { s with temperature_units := value, use_tstat_units := false }
    let r := pull_status s1 false resp
    ⟨r.state, 1, 0, r.exc⟩
  else ⟨s, 0, 0, false⟩

/-- Module constant `OP_MODE_LIST`. -/
def OP_MODE_LIST : List String :=
  ["Off", "Heat only", "Cool only", "Heat or Cool", "Emergency Heat"]

/-- Module constant `FAN_MODE_LIST`. -/
def FAN_MODE_LIST : List String := ["Auto", "On", "Circulate"]

/-- Module constant `STATE_LIST`. -/
def STATE_LIST : List String := ["Idle", "Heating", "Cooling", "System Waiting"]

/-- Module constant `TEMP_UNTIS_LIST` (sic). -/
def TEMP_UNTIS_LIST : List String := ["°F", "°C"]

/-- Python list subscription `l[i]` where `i` may be `None`: `none` models
the `TypeError` on a `None` index and the `IndexError` on an out-of-range
one; a negative in-range index aliases from the end. -/
def pyListIndex (l : List String) (i : Option Int) : Option String :=
  match i with
  | none => none
  | some n =>
    if 0 ≤ n then l[n.toNat]?
    else if n + l.length < 0 then none
    else l[(n + l.length).toNat]?

/-- The ordered key/value structure `get_json` serializes. -/
structure ExportData where
  serial_number : Option String
  state : Option Int
  state_text : String
  op_mode : Option Int
  op_mode_text : String
  fan_mode : Option Int
  fan_mode_text : String
  away_mode : Option Int
  temperature_units : Int
  temperature_units_text : String
  current_temperature : Option ℚ
  current_humidity : Option ℚ
  heat_to : Option ℚ
  cool_to : Option ℚ
  deriving DecidableEq, Repr

/-- Result of `get_json`: the object state afterwards (mutated by the
embedded `pull_status()`), whether that pull issued a request, whether an
uncaught exception propagated, and the serialized data (`none` when an
exception prevented reaching `json.dumps`). -/
structure GetJsonResult where
  state : TstatState
  requested : Bool
  exc : Bool
  output : Option ExportData
  deriving DecidableEq, Repr

/-- Model of `Tstat.get_json`: refresh via `pull_status()` then serialize the
snapshot; the `*_text` lookups subscript the module lists with the raw
field values and raise when a field is `None` or out of list range. -/
def get_json (s : TstatState) (resp : PullResponse) : GetJsonResult :=
  let pr := pull_status s false resp
  if pr.exc then ⟨pr.state, pr.requested, true, none⟩
  else
    let t := pr.state
    match pyListIndex STATE_LIST t.state with
    | none => ⟨t, pr.requested, true, none⟩
    | some stateText =>
      match pyListIndex OP_MODE_LIST t.op_mode with
      | none => ⟨t, pr.requested, true, none⟩
      | some opModeText =>
        match pyListIndex FAN_MODE_LIST t.fan_mode with
        | none => ⟨t, pr.requested, true, none⟩
        | some fanModeText =>
          match pyListIndex TEMP_UNTIS_LIST (some t.temperature_units) with
          | none => ⟨t, pr.requested, true, none⟩
          | some unitsText =>
            ⟨t, pr.requested, false, some
              { serial_number := t.serial_number
                state := t.state
                state_text := stateText
                op_mode := t.op_mode
                op_mode_text := opModeText
                fan_mode := t.fan_mode
                fan_mode_text := fanModeText
                away_mode := t.away_mode
                temperature_units := t.temperature_units
                temperature_units_text := unitsText
                current_temperature := t.current_temperature
                current_humidity := t.current_humidity
                heat_to := t.heat_to
                cool_to := t.cool_to }⟩

/-! Concrete fixtures used by the witnesses and counterexamples. -/

/-- A per-zone record with every field present and numeric. -/
def recGood : ZoneRecord :=
  { Pref_Temp_Units := some (.num 1)
    System_Status := some (.num 2)
    Operation_Mode := some (.num 3)
    Fan_Mode := some (.num 1)
    Away_Mode := some (.num 0)
    Indoor_Temp := some (.num 72)
    Indoor_Humidity := some (.num 40)
    Heat_Set_Point := some (.num 65)
    Cool_Set_Point := some (.num 70) }

/-- Variant of `recGood` with an `Indoor_Temp` value on which `float()` raises. -/
def recBadTemp : ZoneRecord := { recGood with Indoor_Temp := some .bad }

/-- A connected client with a fully populated snapshot, tracking the
thermostat's own unit preference. -/
def sPop : TstatState :=
  { serial_number := some "SN123"
    system := 0
    zone := 0
    temperature_units := 0
    use_tstat_units := true
    heat_to := some 66
    cool_to := some 74
    away_mode := some 1
    state := some 0
    op_mode := some 0
    fan_mode := some 0
    current_temperature := some 68
    current_humidity := some 45 }

/-! Helper lemmas. -/

/-- The returned object state of `_push_settings` is always the input
state: the method mutates nothing. -/
lemma push_settings_fst (s : TstatState) : (push_settings s).1 = s := by
  unfold push_settings
  rcases h : s.serial_number <;> simp [h]

/-- A property preserved by a step and holding before it holds after the
exception-aware sequencing. -/
lemma thenStep_pres (P : TstatState → Prop) (r : TstatState × Bool)
    (f : TstatState → TstatState × Bool) (hr : P r.1)
    (hf : ∀ t, P t → P (f t).1) : P (thenStep r f).1 := by
  unfold thenStep
  split
  · exact hr
  · exact hf r.1 hr

/-- When the client holds a fixed unit override, the assignment block of
`pull_status` never touches the unit fields. -/
lemma applyRecord_units_inv (s : TstatState) (rec : ZoneRecord)
    (h : s.use_tstat_units = false) :
    (applyRecord s rec).1.temperature_units = s.temperature_units ∧
    (applyRecord s rec).1.use_tstat_units = false := by
  unfold applyRecord
  refine thenStep_pres
    (fun t => t.temperature_units = s.temperature_units ∧
      t.use_tstat_units = false) _ _ (by simp [h]) ?_
  intro t1 h1
  refine thenStep_pres
    (fun t => t.temperature_units = s.temperature_units ∧
      t.use_tstat_units = false) _ _ ?_ ?_
  · cases hx : jvalInt rec.System_Status <;> exact h1
  intro t2 h2
  refine thenStep_pres
    (fun t => t.temperature_units = s.temperature_units ∧
      t.use_tstat_units = false) _ _ ?_ ?_
  · cases hx : jvalInt rec.Operation_Mode <;> exact h2
  intro t3 h3
  refine thenStep_pres
    (fun t => t.temperature_units = s.temperature_units ∧
      t.use_tstat_units = false) _ _ ?_ ?_
  · cases hx : jvalInt rec.Fan_Mode <;> exact h3
  intro t4 h4
  refine thenStep_pres
    (fun t => t.temperature_units = s.temperature_units ∧
      t.use_tstat_units = false) _ _ ?_ ?_
  · cases hx : jvalInt rec.Away_Mode <;> exact h4
  intro t5 h5
  refine thenStep_pres
    (fun t => t.temperature_units = s.temperature_units ∧
      t.use_tstat_units = false) _ _ ?_ ?_
  · cases hx : jvalFloat rec.Indoor_Temp <;> exact h5
  intro t6 h6
  refine thenStep_pres
    (fun t => t.temperature_units = s.temperature_units ∧
      t.use_tstat_units = false) _ _ ?_ ?_
  · cases hx : jvalFloat rec.Indoor_Humidity <;> exact h6
  intro t7 h7
  refine thenStep_pres
    (fun t => t.temperature_units = s.temperature_units ∧
      t.use_tstat_units = false) _ _ ?_ ?_
  · cases hx : jvalFloat rec.Heat_Set_Point <;> exact h7
  intro t8 h8
  cases hx : jvalFloat rec.Cool_Set_Point <;> exact h8

/-- When every field of the selected record parses, the assignment block
overwrites the whole snapshot and raises nothing. -/
lemma applyRecord_ok (s : TstatState) (rec : ZoneRecord)
    (u st om fm am : Int) (it ih hts cts : ℚ)
    (hu : jvalInt rec.Pref_Temp_Units = some u)
    (hst : jvalInt rec.System_Status = some st)
    (hom : jvalInt rec.Operation_Mode = some om)
    (hfm : jvalInt rec.Fan_Mode = some fm)
    (ham : jvalInt rec.Away_Mode = some am)
    (hit : jvalFloat rec.Indoor_Temp = some it)
    (hih : jvalFloat rec.Indoor_Humidity = some ih)
    (hht : jvalFloat rec.Heat_Set_Point = some hts)
    (hct : jvalFloat rec.Cool_Set_Point = some cts) :
    applyRecord s rec =
      ({ s with
          temperature_units :=
            if s.use_tstat_units then u else s.temperature_units
          state := some st
          op_mode := some om
          fan_mode := some fm
          away_mode := some am
          current_temperature := some it
          current_humidity := some ih
          heat_to := some hts
          cool_to := some cts }, false) := by
  by_cases hmode : s.use_tstat_units <;>
    simp [applyRecord, thenStep, hu, hst, hom, hfm, ham, hit, hih, hht, hct,
      hmode]

/-- A pull never touches the unit fields of a client holding a fixed unit
override. -/
lemma pull_status_units_inv (s : TstatState) (initial : Bool)
    (resp : PullResponse) (h : s.use_tstat_units = false) :
    (pull_status s initial resp).state.temperature_units =
      s.temperature_units ∧
    (pull_status s initial resp).state.use_tstat_units = false := by
  unfold pull_status
  rcases hs : s.serial_number with _ | sn
  · simp [h]
  rcases resp with l | code
  · rcases hz : l[s.zone]? with _ | rec
    · rcases hinit : initial
      · simp [hz, h]
      · rcases hz0 : l[0]? with _ | rec0
        · simp [hz, hz0, h]
        · have h' := applyRecord_units_inv { s with zone := 0 } rec0 h
          simp only [hz, hz0]
          simpa [hs] using h'
    · have h' := applyRecord_units_inv s rec h
      simp only [hz]
      simpa [hs] using h'
  · simp [h]


/-! Theorems, one per claim. -/

/-- C2: for a successful systems-list response, identity resolution sets
the serial number to the `Gateway_SN` at the configured system index when
it is in range; when out of range the system index is reset to 0 and
selection is retried exactly once against the same response; when the
retry also fails the serial number is unchanged (so a client whose
identity was never resolved stays `None` and reports not connected). -/
theorem C2_serial_resolution (s : TstatState) (systems : List String) :
    (∀ sn, systems[s.system]? = some sn →
      get_serial_number s (.ok systems) = { s with serial_number := some sn }) ∧
    (systems[s.system]? = none →
      (∀ sn, systems[0]? = some sn →
        get_serial_number s (.ok systems) =
          { s with system := 0, serial_number := some sn }) ∧
      (systems[0]? = none →
        get_serial_number s (.ok systems) = { s with system := 0 } ∧
        (s.serial_number = none →
          connected (get_serial_number s (.ok systems)) = false))) := by
  refine ⟨fun sn hsn => ?_, fun hmiss => ⟨fun sn hsn => ?_, fun hmiss0 => ?_⟩⟩
  · simp [get_serial_number, hsn]
  · simp [get_serial_number, hmiss, hsn]
  · refine ⟨by simp [get_serial_number, hmiss, hmiss0], fun hser => ?_⟩
    simp [get_serial_number, hmiss, hmiss0, connected, hser]

/-- C2 witness: in-range selection at index 1, fallback from index 5 to
index 0, and a failed fallback on an empty list leaving the client
disconnected. -/
theorem C2_serial_resolution_witness :
    get_serial_number (mkInitState 1 0 9) (.ok ["A", "B"]) =
      { mkInitState 1 0 9 with serial_number := some "B" } ∧
    get_serial_number (mkInitState 5 0 9) (.ok ["A", "B"]) =
      { mkInitState 5 0 9 with system := 0, serial_number := some "A" } ∧
    connected (get_serial_number (mkInitState 5 0 9) (.ok [])) = false :=
  ⟨(C2_serial_resolution (mkInitState 1 0 9) ["A", "B"]).1 "B" rfl,
   ((C2_serial_resolution (mkInitState 5 0 9) ["A", "B"]).2 rfl).1 "A" rfl,
   (((C2_serial_resolution (mkInitState 5 0 9) []).2 rfl).2 rfl).2 rfl⟩

/-- C3: assigning a pair to the set-point setter makes the smaller value
the heat set point and the larger the cool set point, in either input
order and whatever the current operating mode, and `_push_settings` is
invoked. -/
theorem C3_pair_set_points (s : TstatState) (a b : ℚ) :
    (set_points_set s (.tuple [a, b])).state =
      { s with heat_to := some (min a b), cool_to := some (max a b) } ∧
    (set_points_set s (.tuple [b, a])).state =
      { s with heat_to := some (min a b), cool_to := some (max a b) } ∧
    (set_points_set s (.tuple [a, b])).pushCalled = true := by
  refine ⟨?_, ?_, ?_⟩ <;>
    simp [set_points_set, set_points_apply, push_settings_fst, min_comm,
      max_comm]

/-- C4: assigning a single value to the set-point setter changes only the
heat set point in modes 1 and 4 (heat only, emergency heat), only the cool
set point in mode 2 (cool only), and neither in modes 0 and 3 (off, heat
or cool); `_push_settings` is invoked in every one of these cases. -/
theorem C4_scalar_set_points (s : TstatState) (v : ℚ) :
    (set_points_set s (.scalar v)).pushCalled = true ∧
    (s.op_mode = some 1 ∨ s.op_mode = some 4 →
      (set_points_set s (.scalar v)).state = { s with heat_to := some v }) ∧
    (s.op_mode = some 2 →
      (set_points_set s (.scalar v)).state = { s with cool_to := some v }) ∧
    (s.op_mode = some 0 ∨ s.op_mode = some 3 →
      (set_points_set s (.scalar v)).state = s) := by
  refine ⟨?_, fun h => ?_, fun h => ?_, fun h => ?_⟩
  · by_cases h2 : s.op_mode = some 2
    · simp [set_points_set, set_points_apply, h2]
    · by_cases h14 : s.op_mode = some 1 ∨ s.op_mode = some 4 <;>
        simp [set_points_set, set_points_apply, h2, h14]
  · have h2 : ¬s.op_mode = some 2 := by rcases h with h | h <;> simp [h]
    simp [set_points_set, set_points_apply, h2, h, push_settings_fst]
  · simp [set_points_set, set_points_apply, h, push_settings_fst]
  · have h2 : ¬s.op_mode = some 2 := by rcases h with h | h <;> simp [h]
    have h14 : ¬(s.op_mode = some 1 ∨ s.op_mode = some 4) := by
      rcases h with h | h <;> simp [h]
    simp [set_points_set, set_points_apply, h2, h14, push_settings_fst]

/-- C4 witness: in mode 2 a single value `68` changes only the cool set
point; in mode 0 neither set point changes; the push is attempted in both
cases. -/
theorem C4_scalar_set_points_witness :
    (set_points_set { sPop with op_mode := some 2 } (.scalar 68)).state =
      { sPop with op_mode := some 2, cool_to := some 68 } ∧
    (set_points_set sPop (.scalar 68)).state = sPop ∧
    (set_points_set sPop (.scalar 68)).pushCalled = true ∧
    (set_points_set { sPop with op_mode := some 2 } (.scalar 68)).pushCalled
      = true :=
  ⟨(C4_scalar_set_points { sPop with op_mode := some 2 } 68).2.2.1 rfl,
   (C4_scalar_set_points sPop 68).2.2.2 (Or.inl rfl),
   (C4_scalar_set_points sPop 68).1,
   (C4_scalar_set_points { sPop with op_mode := some 2 } 68).1⟩

/-- C1: with a resolved identity and a 200 response, `pull_status` applies
the record at the configured zone index when it is in range; when out of
range on the initial pull the zone index is reset to 0 and the selection
retried exactly once against the same record list; when out of range on a
later pull the whole object state is left unchanged, nothing is raised,
and an error is logged. -/
theorem C1_zone_selection (s : TstatState) (sn : String) (l : List ZoneRecord)
    (initial : Bool) (h : s.serial_number = some sn) :
    (∀ rec, l[s.zone]? = some rec →
      pull_status s initial (.ok l) =
        ⟨(applyRecord s rec).1, true, (applyRecord s rec).2, [.debug]⟩) ∧
    (l[s.zone]? = none → initial = true →
      (∀ rec, l[0]? = some rec →
        pull_status s initial (.ok l) =
          ⟨(applyRecord { s with zone := 0 } rec).1, true,
            (applyRecord { s with zone := 0 } rec).2, [.debug, .warning]⟩) ∧
      (l[0]? = none →
        pull_status s initial (.ok l) =
          ⟨{ s with zone := 0 }, true, false, [.debug, .warning, .error]⟩)) ∧
    (l[s.zone]? = none → initial = false →
      (pull_status s initial (.ok l)).state = s ∧
      (pull_status s initial (.ok l)).exc = false ∧
      .error ∈ (pull_status s initial (.ok l)).logs) := by
  refine ⟨fun rec hrec => ?_,
    fun hmiss hinit => ⟨fun rec hrec => ?_, fun hmiss0 => ?_⟩,
    fun hmiss hinit => ?_⟩
  · simp [pull_status, h, hrec]
  · subst hinit; simp [pull_status, h, hmiss, hrec]
  · subst hinit; simp [pull_status, h, hmiss, hmiss0]
  · subst hinit; simp [pull_status, h, hmiss]

/-- C1 witness: in-range selection at zone 0; initial-pull fallback from
zone 5 to zone 0 (and to an error when the list is empty); non-initial
out-of-range pull leaving the state untouched with an error logged. -/
theorem C1_zone_selection_witness :
    pull_status sPop false (.ok [recGood]) =
      ⟨(applyRecord sPop recGood).1, true, (applyRecord sPop recGood).2,
        [.debug]⟩ ∧
    pull_status { sPop with zone := 5 } true (.ok [recGood]) =
      ⟨(applyRecord { sPop with zone := 0 } recGood).1, true,
        (applyRecord { sPop with zone := 0 } recGood).2,
        [.debug, .warning]⟩ ∧
    pull_status { sPop with zone := 5 } true (.ok []) =
      ⟨{ sPop with zone := 0 }, true, false,
        [.debug, .warning, .error]⟩ ∧
    (pull_status { sPop with zone := 5 } false (.ok [recGood])).state =
      { sPop with zone := 5 } ∧
    (pull_status { sPop with zone := 5 } false (.ok [recGood])).exc = false ∧
    .error ∈ (pull_status { sPop with zone := 5 } false (.ok [recGood])).logs :=
  ⟨(C1_zone_selection sPop "SN123" [recGood] false rfl).1 recGood rfl,
   ((C1_zone_selection { sPop with zone := 5 } "SN123" [recGood] true rfl).2.1
      rfl rfl).1 recGood rfl,
   ((C1_zone_selection { sPop with zone := 5 } "SN123" [] true rfl).2.1
      rfl rfl).2 rfl,
   (C1_zone_selection { sPop with zone := 5 } "SN123" [recGood] false
      rfl).2.2 rfl rfl⟩

/-- C5: on a successful pull with an in-range, fully parseable record,
every snapshot field is overwritten from that record, and the temperature
units are re-derived from `Pref_Temp_Units` exactly when the client tracks
the thermostat's own unit preference (otherwise the override is kept). -/
theorem C5_snapshot_overwrite (s : TstatState) (sn : String)
    (l : List ZoneRecord) (rec : ZoneRecord) (initial : Bool)
    (hconn : s.serial_number = some sn)
    (hz : l[s.zone]? = some rec)
    (u st om fm am : Int) (it ih hts cts : ℚ)
    (hu : jvalInt rec.Pref_Temp_Units = some u)
    (hst : jvalInt rec.System_Status = some st)
    (hom : jvalInt rec.Operation_Mode = some om)
    (hfm : jvalInt rec.Fan_Mode = some fm)
    (ham : jvalInt rec.Away_Mode = some am)
    (hit : jvalFloat rec.Indoor_Temp = some it)
    (hih : jvalFloat rec.Indoor_Humidity = some ih)
    (hht : jvalFloat rec.Heat_Set_Point = some hts)
    (hct : jvalFloat rec.Cool_Set_Point = some cts) :
    pull_status s initial (.ok l) =
      ⟨{ s with
          temperature_units :=
            if s.use_tstat_units then u else s.temperature_units
          state := some st
          op_mode := some om
          fan_mode := some fm
          away_mode := some am
          current_temperature := some it
          current_humidity := some ih
          heat_to := some hts
          cool_to := some cts }, true, false, [.debug]⟩ := by
  have hrec := applyRecord_ok s rec u st om fm am it ih hts cts
    hu hst hom hfm ham hit hih hht hct
  simp [pull_status, hconn, hz, hrec]

/-- C5 witness: a concrete successful pull on a tracking client overwrites
the whole populated snapshot, including the units, from `recGood`. -/
theorem C5_snapshot_overwrite_witness :
    pull_status sPop false (.ok [recGood]) =
      ⟨{ sPop with
          temperature_units := 1
          state := some 2
          op_mode := some 3
          fan_mode := some 1
          away_mode := some 0
          current_temperature := some 72
          current_humidity := some 40
          heat_to := some 65
          cool_to := some 70 }, true, false, [.debug]⟩ :=
  (C5_snapshot_overwrite sPop "SN123" [recGood] recGood false rfl rfl
    1 2 3 1 0 72 40 65 70 (by decide) (by decide) (by decide) (by decide)
    (by decide) (by decide) (by decide) (by decide) (by decide)).trans
    (by decide)

/-- C6: assigning 0 or 1 to the `temperature_units` setter fixes the unit
override to that value, switches the client off unit tracking, and
triggers exactly one `pull_status` and no `_push_settings`; assigning any
other value changes nothing and triggers no remote operation at all. -/
theorem C6_units_setter (s : TstatState) (v : Int) (resp : PullResponse) :
    (v = 0 ∨ v = 1 →
      (temperature_units_set s v resp).state.temperature_units = v ∧
      (temperature_units_set s v resp).state.use_tstat_units = false ∧
      (temperature_units_set s v resp).pullCount = 1 ∧
      (temperature_units_set s v resp).pushCount = 0) ∧
    (¬(v = 0 ∨ v = 1) →
      temperature_units_set s v resp = ⟨s, 0, 0, false⟩) := by
  constructor
  · intro hv
    have hset : temperature_units_set s v resp =
        ⟨(pull_status { s with temperature_units := v, use_tstat_units := false }
            false resp).state, 1, 0,
          (pull_status { s with temperature_units := v, use_tstat_units := false }
            false resp).exc⟩ := by
      simp [temperature_units_set, hv]
    have hinv := pull_status_units_inv
      { s with temperature_units := v, use_tstat_units := false } false resp rfl
    rw [hset]
    exact ⟨hinv.1, hinv.2, rfl, rfl⟩
  · intro hv
    simp [temperature_units_set, hv]

/-- C6 witness: setting Celsius on a tracking client fixes the override
at 1 with one pull and no push; an invalid value 9 is a complete no-op. -/
theorem C6_units_setter_witness :
    (temperature_units_set sPop 1 (.ok [recGood])).state.temperature_units
      = 1 ∧
    (temperature_units_set sPop 1 (.ok [recGood])).state.use_tstat_units
      = false ∧
    (temperature_units_set sPop 1 (.ok [recGood])).pullCount = 1 ∧
    (temperature_units_set sPop 1 (.ok [recGood])).pushCount = 0 ∧
    temperature_units_set sPop 9 (.ok [recGood]) = ⟨sPop, 0, 0, false⟩ :=
  ⟨((C6_units_setter sPop 1 (.ok [recGood])).1 (Or.inr rfl)).1,
   ((C6_units_setter sPop 1 (.ok [recGood])).1 (Or.inr rfl)).2.1,
   ((C6_units_setter sPop 1 (.ok [recGood])).1 (Or.inr rfl)).2.2.1,
   ((C6_units_setter sPop 1 (.ok [recGood])).1 (Or.inr rfl)).2.2.2,
   (C6_units_setter sPop 9 (.ok [recGood])).2 (by decide)⟩

/-- C7: with an unresolved identity (serial number `None`, as left by an
unauthorized identity-resolution response) `pull_status`, `_push_settings`
and the `away_mode` setter are all no-ops: no request is issued and no
state field changes. -/
theorem C7_disconnected_noops (s : TstatState) (h : s.serial_number = none) :
    (∀ initial resp, pull_status s initial resp = ⟨s, false, false, []⟩) ∧
    push_settings s = (s, none) ∧
    (∀ v, away_mode_set s v = (s, none)) ∧
    (∀ system zone units,
      get_serial_number (mkInitState system zone units) .unauthorized =
        mkInitState system zone units ∧
      connected
        (get_serial_number (mkInitState system zone units) .unauthorized) =
        false) := by
  refine ⟨fun initial resp => ?_, ?_, fun v => ?_, fun system zone units => ?_⟩
  · simp [pull_status, h]
  · simp [push_settings, h]
  · simp [away_mode_set, h]
  · exact ⟨rfl, rfl⟩

/-- C7 witness: a fresh client whose identity resolution got a 401 stays
disconnected, and its pull, push and away-mode operations are no-ops. -/
theorem C7_disconnected_noops_witness :
    get_serial_number (mkInitState 0 0 9) .unauthorized = mkInitState 0 0 9 ∧
    connected (get_serial_number (mkInitState 0 0 9) .unauthorized) = false ∧
    pull_status (mkInitState 0 0 9) false (.ok [recGood]) =
      ⟨mkInitState 0 0 9, false, false, []⟩ ∧
    push_settings (mkInitState 0 0 9) = (mkInitState 0 0 9, none) ∧
    away_mode_set (mkInitState 0 0 9) 1 = (mkInitState 0 0 9, none) :=
  ⟨((C7_disconnected_noops (mkInitState 0 0 9) rfl).2.2.2 0 0 9).1,
   ((C7_disconnected_noops (mkInitState 0 0 9) rfl).2.2.2 0 0 9).2,
   (C7_disconnected_noops (mkInitState 0 0 9) rfl).1 false (.ok [recGood]),
   (C7_disconnected_noops (mkInitState 0 0 9) rfl).2.1,
   (C7_disconnected_noops (mkInitState 0 0 9) rfl).2.2.1 1⟩

/-- C9: with a resolved identity the `away_mode` setter sends exactly the
dedicated away-mode request built from the serial number and the assigned
flag, mutates no state field, and in particular leaves the snapshot's
away-mode field at its previous value. -/
theorem C9_away_mode_frame (s : TstatState) (sn : String) (v : Int)
    (h : s.serial_number = some sn) :
    away_mode_set s v = (s, some ⟨sn, v⟩) ∧
    (away_mode_set s v).1.away_mode = s.away_mode := by
  simp [away_mode_set, h]

/-- C9 witness: a concrete away-mode assignment on a connected client. -/
theorem C9_away_mode_frame_witness :
    away_mode_set sPop 1 = (sPop, some ⟨"SN123", 1⟩) ∧
    (away_mode_set sPop 1).1.away_mode = sPop.away_mode :=
  C9_away_mode_frame sPop "SN123" 1 rfl

/-- C8 counterexample: two operations do raise to the caller: `get_json`
on a never-populated snapshot (here a disconnected fresh client, whose
`STATE_LIST[None]` lookup raises `TypeError`), and `pull_status` on a 200
response whose selected record holds a non-numeric `Indoor_Temp` (the
uncaught `ValueError` of `float()`). -/
theorem C8_counterexample :
    (get_json (mkInitState 0 0 9) (.err 500)).exc = true ∧
    (pull_status sPop false (.ok [recBadTemp])).exc = true := by decide

/-- C8 amended: non-success responses, an unresolved identity and
out-of-range indices never raise — those paths only log and return with
the snapshot intact (`_push_settings` and `_get_serial_number` mutate
nothing and return normally on every modelled response) — but `get_json`
raises on an unpopulated snapshot and `pull_status` raises on a 200
response whose selected record has a missing or malformed field. -/
theorem C8_amended_error_paths (s : TstatState) (initial : Bool) :
    (∀ code, (pull_status s initial (.err code)).state = s ∧
      (pull_status s initial (.err code)).exc = false) ∧
    (s.serial_number = none → ∀ resp,
      (pull_status s initial resp).state = s ∧
      (pull_status s initial resp).exc = false) ∧
    (∀ l, l[s.zone]? = none → initial = false →
      (pull_status s initial (.ok l)).state = s ∧
      (pull_status s initial (.ok l)).exc = false) ∧
    (push_settings s).1 = s ∧
    (get_json (mkInitState 0 0 9) (.err 500)).exc = true ∧
    (pull_status sPop false (.ok [recBadTemp])).exc = true := by
  refine ⟨fun code => ?_, fun h resp => ?_, fun l hmiss hinit => ?_,
    push_settings_fst s, by decide, by decide⟩
  · rcases hs : s.serial_number <;> simp [pull_status, hs]
  · simp [pull_status, h]
  · subst hinit
    rcases hs : s.serial_number <;> simp [pull_status, hs, hmiss]

/-- C8 amended witness: concrete instances of every hypothesis-guarded
part: a 503 pull, a pull and a push on a disconnected client, and a
non-initial out-of-range pull. -/
theorem C8_amended_error_paths_witness :
    (pull_status sPop false (.err 503)).state = sPop ∧
    (pull_status sPop false (.err 503)).exc = false ∧
    (pull_status (mkInitState 0 0 9) false (.ok [recGood])).state =
      mkInitState 0 0 9 ∧
    (pull_status (mkInitState 0 0 9) false (.ok [recGood])).exc = false ∧
    (pull_status { sPop with zone := 5 } false (.ok [recGood])).state =
      { sPop with zone := 5 } ∧
    (pull_status { sPop with zone := 5 } false (.ok [recGood])).exc = false :=
  ⟨((C8_amended_error_paths sPop false).1 503).1,
   ((C8_amended_error_paths sPop false).1 503).2,
   ((C8_amended_error_paths (mkInitState 0 0 9) false).2.1 rfl
      (.ok [recGood])).1,
   ((C8_amended_error_paths (mkInitState 0 0 9) false).2.1 rfl
      (.ok [recGood])).2,
   ((C8_amended_error_paths { sPop with zone := 5 } false).2.2.1
      [recGood] rfl rfl).1,
   ((C8_amended_error_paths { sPop with zone := 5 } false).2.2.1
      [recGood] rfl rfl).2⟩

/-- C10: a 200 response with an in-range record whose `Indoor_Temp` is
non-numeric leaves the snapshot partially updated: units, state, operation
mode, fan mode and away mode are already overwritten when the `float()`
conversion raises, while the temperature, humidity and both set points
keep their previous values — the update is not atomic. -/
theorem C10_nonatomic_update :
    (pull_status sPop false (.ok [recBadTemp])).exc = true ∧
    (pull_status sPop false (.ok [recBadTemp])).state.temperature_units = 1 ∧
    (pull_status sPop false (.ok [recBadTemp])).state.state = some 2 ∧
    (pull_status sPop false (.ok [recBadTemp])).state.op_mode = some 3 ∧
    (pull_status sPop false (.ok [recBadTemp])).state.fan_mode = some 1 ∧
    (pull_status sPop false (.ok [recBadTemp])).state.away_mode = some 0 ∧
    (pull_status sPop false (.ok [recBadTemp])).state.current_temperature =
      sPop.current_temperature ∧
    (pull_status sPop false (.ok [recBadTemp])).state.current_humidity =
      sPop.current_humidity ∧
    (pull_status sPop false (.ok [recBadTemp])).state.heat_to = sPop.heat_to ∧
    (pull_status sPop false (.ok [recBadTemp])).state.cool_to = sPop.cool_to ∧
    (pull_status sPop false (.ok [recBadTemp])).state ≠ sPop := by decide

end Myicomfort
